import Mathlib

/-
  Verification of the Bank of Brown account ledger core.

  Shallow embedding of backend/controllers/accountController.js (which also
  contains the concatenated data-access layer, dal.js).  The Mongo "users"
  collection is a list of documents in natural (insertion) order; JS numbers
  (balances, amounts) are modelled as rationals; thrown repository errors are
  an explicit error type, and since the code can throw AFTER a database write,
  repository operations return the post-state together with the outcome.
-/

deriving instance DecidableEq for Except

namespace BankOfBrown

/-- A document of the users collection.  createUser inserts name, email,
password, balance, accountNumber, accountType and role; phoneNumber is added
by the profile-update path, so fields not set at insertion are options. -/
structure UserRecord where
  name : String
  email : String
  password : String
  balance : Rat
  accountNumber : Option Int
  accountType : Option String
  phoneNumber : Option String
  role : Option String
deriving DecidableEq

/-- The users collection, in natural (insertion) order. -/
abbrev Store := List UserRecord

/-- Error kinds thrown by the data-access layer, one per distinct throw
message: "Amount must be positive.", "User not found.",
"Insufficient funds.". -/
inductive DalError where
  | invalidAmount
  | notFound
  | insufficientFunds
deriving DecidableEq

/-- db.collection(users).findOne(\x7b email \x7d): first document whose email
field matches, or none. -/
def usersFindOne (s : Store) (email : String) : Option UserRecord :=
  match s with
  | [] => none
  | u :: rest => if u.email == email then some u else usersFindOne rest email

/-- db.collection(users).findOneAndUpdate(\x7b email \x7d,
\x7b $inc: \x7b balance: amt \x7d \x7d, \x7b returnDocument: after \x7d):
increments the balance of the first matching document and returns the new
store together with the post-update document (none when nothing matched). -/
def findOneAndIncBalance (s : Store) (email : String) (amt : Rat) :
    Store × Option UserRecord :=
  match s with
  | [] => ([], none)
  | u :: rest =>
    if u.email == email then
      ({ u with balance := u.balance + amt } :: rest,
       some { u with balance := u.balance + amt })
    else
      let r := findOneAndIncBalance rest email amt
      (u :: r.1, r.2)

/-- db.collection(users).updateOne(\x7b email \x7d, \x7b $set: newData \x7d):
applies the field merge f to the first matching document; the second component
is modifiedCount (0 when no match, or when the merge changes nothing). -/
def updateOneSet (s : Store) (email : String) (f : UserRecord → UserRecord) :
    Store × Nat :=
  match s with
  | [] => ([], 0)
  | u :: rest =>
    if u.email == email then
      if f u = u then (u :: rest, 0) else (f u :: rest, 1)
    else
      let r := updateOneSet rest email f
      (u :: r.1, r.2)

/-- dal.createUser: inserts a new document with balance 0, accountType
checking and role user, and returns it (result.ops[0]). -/
def createUser (s : Store) (name email password : String)
    (accountNumber : Int) : Store × UserRecord :=
  let doc : UserRecord :=
    { name := name, email := email, password := password, balance := 0,
      accountNumber := some accountNumber, accountType := some "checking",
      phoneNumber := none, role := some "user" }
  (s ++ [doc], doc)

/-- dal.findOne: findOne wrapper that throws "User not found." instead of
returning null. -/
def findOne (s : Store) (email : String) : Except DalError UserRecord :=
  match usersFindOne s email with
  | some u => Except.ok u
  | none => Except.error DalError.notFound

/-- dal.deposit: runs findOneAndUpdate with an unconditional $inc of the
amount FIRST, and only afterwards validates the amount and the lookup result;
a throw therefore does not undo the increment, so the post-state is returned
alongside the outcome. -/
def deposit (s : Store) (email : String) (amount : Rat) :
    Store × Except DalError UserRecord :=
  let r := findOneAndIncBalance s email amount
  if amount ≤ 0 then (r.1, Except.error DalError.invalidAmount)
  else
    match r.2 with
    | none => (r.1, Except.error DalError.notFound)
    | some u => (r.1, Except.ok u)

/-- dal.withdraw: reads the document, validates amount positivity, existence
and balance sufficiency in that order, then decrements via findOneAndUpdate
and returns result.value (an option, not null-checked by the source). -/
def withdraw (s : Store) (email : String) (amount : Rat) :
    Store × Except DalError (Option UserRecord) :=
  let user := usersFindOne s email
  if amount ≤ 0 then (s, Except.error DalError.invalidAmount)
  else
    match user with
    | none => (s, Except.error DalError.notFound)
    | some u =>
      if u.balance < amount then (s, Except.error DalError.insufficientFunds)
      else
        let r := findOneAndIncBalance s email (-amount)
        (r.1, Except.ok r.2)

/-- dal.update: updateOne with $set, then, when exactly one document was
modified, a re-read of the first matching document; null otherwise. -/
def update (s : Store) (email : String) (f : UserRecord → UserRecord) :
    Store × Option UserRecord :=
  let r := updateOneSet s email f
  if r.2 = 1 then (r.1, usersFindOne r.1 email) else (r.1, none)

/-- Math.floor(1000000000 + r * 9000000000) for a random draw r, the account
number generator used both by the create route and by createBankAccount. -/
def genAccountNumber (r : Rat) : Int :=
  Int.floor ((1000000000 : Rat) + r * 9000000000)

/-- dal.createBankAccount: draws a fresh account number and $sets
accountNumber and accountType on the matching document via dal.update. -/
def createBankAccount (s : Store) (email accountType : String) (r : Rat) :
    Store × Option UserRecord :=
  update s email
    (fun u => { u with accountNumber := some (genAccountNumber r),
                       accountType := some accountType })

/- ----------------------------------------------------------------- -/
/- HTTP layer: response payloads as built by the Express handlers.   -/
/- ----------------------------------------------------------------- -/

/-- A primitive JSON value appearing in a serialized user document. -/
inductive Prim where
  | str (s : String)
  | num (q : Rat)
deriving DecidableEq

/-- The JSON body shapes produced by the account handlers. -/
inductive Body where
  | msg (message : String)
  | msgUser (message : String) (user : List (String × Prim))
  | msgBalance (message : String) (balance : Rat)
deriving DecidableEq

/-- Whether a response body carries a password key anywhere. -/
def bodyHasPassword : Body → Bool
  | Body.msgUser _ fields => fields.any (fun kv => kv.1 == "password")
  | _ => false

/-- An HTTP response: status code and JSON body. -/
structure HttpResponse where
  status : Nat
  body : Body
deriving DecidableEq

/- ----------------------------------------------------------------- -/
/- JavaScript-level model of the create pipeline.  The route calls   -/
/- dal.create(\x7b name, email, password: hashed, accountNumber \x7d)-/
/- with ONE object, but the effective data-access layer defines      -/
/- create(name, email, password) POSITIONALLY, so the request object -/
/- lands in the name parameter and email/password stay undefined.    -/
/- The documents this produces leave the well-typed UserRecord shape,-/
/- so this pipeline is modelled over JavaScript-style values.        -/
/- ----------------------------------------------------------------- -/

mutual

/-- A JavaScript runtime value flowing through the create pipeline:
undefined, a string, a number, or an object given by its field list. -/
inductive JsValue where
  | undef
  | str (s : String)
  | num (q : Rat)
  | obj (fields : JsFields)

/-- A field list of a JavaScript object, in insertion order. -/
inductive JsFields where
  | nil
  | cons (key : String) (value : JsValue) (rest : JsFields)

end

/-- A users-collection document at the JavaScript level: its field list. -/
abbrev JsDoc := JsFields

/-- Field access on a document; a missing field reads as undefined. -/
def jsGetField (d : JsFields) (key : String) : JsValue :=
  match d with
  | JsFields.nil => JsValue.undef
  | JsFields.cons k v rest => if k == key then v else jsGetField rest key

/-- db.collection(users).find(\x7b email \x7d).toArray() (dal.find): all
documents whose email field equals the given string; a document whose email
field is undefined (stored as null) matches no string query. -/
def find (s : List JsDoc) (email : String) : List JsDoc :=
  s.filter (fun d =>
    match jsGetField d "email" with
    | JsValue.str t => t == email
    | _ => false)

/-- dal.create, the POSITIONAL signature create(name, email, password) of
the effective data-access layer: inserts \x7b name, email, password,
balance: 0 \x7d and returns the inserted document (result.ops[0]). -/
def create (s : List JsDoc) (name email password : JsValue) :
    List JsDoc × JsDoc :=
  let doc : JsDoc :=
    JsFields.cons "name" name (JsFields.cons "email" email
      (JsFields.cons "password" password
        (JsFields.cons "balance" (JsValue.num 0) JsFields.nil)))
  (s ++ [doc], doc)

mutual

/-- A JSON value as sent to the client. -/
inductive Json where
  | str (s : String)
  | num (q : Rat)
  | obj (fields : JsonFields)

/-- A field list of a JSON object, in insertion order. -/
inductive JsonFields where
  | nil
  | cons (key : String) (value : Json) (rest : JsonFields)

end

mutual

/-- JSON serialization of a JavaScript value; undefined serializes to
nothing (its key is dropped from the enclosing object). -/
def serializeValue : JsValue → Option Json
  | JsValue.undef => none
  | JsValue.str s => some (Json.str s)
  | JsValue.num q => some (Json.num q)
  | JsValue.obj fs => some (Json.obj (serializeFields fs))

/-- JSON serialization of an object field list: undefined-valued keys are
dropped, as JSON.stringify does. -/
def serializeFields : JsFields → JsonFields
  | JsFields.nil => JsonFields.nil
  | JsFields.cons k v rest =>
    match serializeValue v with
    | none => serializeFields rest
    | some j => JsonFields.cons k j (serializeFields rest)

end

mutual

/-- Whether a JSON value carries a password key anywhere inside it. -/
def jsonHasPasswordKey : Json → Bool
  | Json.obj fs => jsonFieldsHavePassword fs
  | Json.str _ => false
  | Json.num _ => false

/-- Whether a JSON field list carries a password key anywhere inside it. -/
def jsonFieldsHavePassword : JsonFields → Bool
  | JsonFields.nil => false
  | JsonFields.cons k v rest =>
    k == "password" || jsonHasPasswordKey v || jsonFieldsHavePassword rest

end

/-- Top-level field lookup in a JSON object field list. -/
def jsonGetField (fs : JsonFields) (key : String) : Option Json :=
  match fs with
  | JsonFields.nil => none
  | JsonFields.cons k v rest =>
    if k == key then some v else jsonGetField rest key

/-- Whether a JSON field list carries a key at top level. -/
def jsonFieldsHaveKey (fs : JsonFields) (key : String) : Bool :=
  match fs with
  | JsonFields.nil => false
  | JsonFields.cons k _ rest => k == key || jsonFieldsHaveKey rest key

/-- Whether the user object of a response body carries a top-level password
field. -/
def userTopLevelPassword (body : JsonFields) : Bool :=
  match jsonGetField body "user" with
  | some (Json.obj fs) => jsonFieldsHaveKey fs "password"
  | _ => false

/-- An HTTP response of the create route: status code and JSON body. -/
structure JsHttpResponse where
  status : Nat
  body : JsonFields

/-- POST /create: checks for duplicates with dal.find, draws an account
number, hashes the password, then calls dal.create with the single object
\x7b name, email, password: hashed, accountNumber \x7d against the
positional signature create(name, email, password) — so the whole request
object lands in the name parameter while the email and password parameters
stay undefined — and answers 201 with the inserted document, whose
undefined-valued fields JSON serialization drops. -/
def createRoute (s : List JsDoc) (name email password : String) (r : Rat)
    (hash : String → String) : List JsDoc × JsHttpResponse :=
  let users := find s email
  if users.length > 0 then
    (s, { status := 409,
          body := JsonFields.cons "message"
                    (Json.str "User already exists") JsonFields.nil })
  else
    let accountNumber := genAccountNumber r
    let hashed := hash password
    let reqObj : JsValue := JsValue.obj
      (JsFields.cons "name" (JsValue.str name)
        (JsFields.cons "email" (JsValue.str email)
          (JsFields.cons "password" (JsValue.str hashed)
            (JsFields.cons "accountNumber"
              (JsValue.num (accountNumber : Rat)) JsFields.nil))))
    let res := create s reqObj JsValue.undef JsValue.undef
    (res.1,
     { status := 201,
       body := JsonFields.cons "message"
                 (Json.str "Account successfully created")
                 (JsonFields.cons "user"
                   (Json.obj (serializeFields res.2)) JsonFields.nil) })

/-- A concrete stand-in for bcrypt.hash, used at concrete inputs. -/
def hashStub (p : String) : String := String.append "hashed." p

/-- POST /deposit: thrown dal errors land in the catch block (500); a
successful dal.deposit answers 200 with the new balance (the 404 branch of
the handler would need a null result, which dal.deposit never returns). -/
def depositRoute (s : Store) (email : String) (amount : Rat) :
    Store × HttpResponse :=
  let r := deposit s email amount
  match r.2 with
  | Except.error _ =>
      (r.1, { status := 500, body := Body.msg "Internal server error" })
  | Except.ok u =>
      (r.1, { status := 200,
              body := Body.msgBalance "Deposit successful" u.balance })

/-- POST /withdraw: thrown dal errors land in the catch block (500); a null
result.value maps to 404, a document to 200 with the new balance. -/
def withdrawRoute (s : Store) (email : String) (amount : Rat) :
    Store × HttpResponse :=
  let r := withdraw s email amount
  match r.2 with
  | Except.error _ =>
      (r.1, { status := 500, body := Body.msg "Internal server error" })
  | Except.ok none =>
      (r.1, { status := 404,
              body := Body.msg "User not found or insufficient funds" })
  | Except.ok (some u) =>
      (r.1, { status := 200,
              body := Body.msgBalance "Withdrawal successful" u.balance })

/-- GET /balance/:email: dal.findOne throws on a missing user, which the
handler catch maps to 500; on success 200 with the balance. -/
def balanceRoute (s : Store) (email : String) : HttpResponse :=
  match findOne s email with
  | Except.error _ =>
      { status := 500, body := Body.msg "Internal server error" }
  | Except.ok u =>
      { status := 200,
        body := Body.msgBalance "Balance retrieval successful" u.balance }

/-- A concrete record used by witnesses and counterexamples. -/
def ana : UserRecord :=
  { name := "Ana", email := "ana@x.com", password := "secret",
    balance := 100, accountNumber := some 1234567890,
    accountType := some "checking", phoneNumber := none,
    role := some "user" }

/- ----------------------------------------------------------------- -/
/- Structural lemmas about the store primitives.                     -/
/- ----------------------------------------------------------------- -/

/-- Either no document matches the email, and the $inc update is a no-op
returning none, or the store splits as pre ++ u :: post around the first
match u, and the update bumps exactly that balance. -/
lemma findOneAndIncBalance_eq (s : Store) (email : String) (amt : Rat) :
    (usersFindOne s email = none ∧
       findOneAndIncBalance s email amt = (s, none)) ∨
    (∃ pre u post, s = pre ++ u :: post ∧
       (∀ v ∈ pre, (v.email == email) = false) ∧
       (u.email == email) = true ∧
       usersFindOne s email = some u ∧
       findOneAndIncBalance s email amt =
         (pre ++ { u with balance := u.balance + amt } :: post,
          some { u with balance := u.balance + amt })) := by
  induction s with
  | nil => exact Or.inl ⟨rfl, rfl⟩
  | cons a rest ih =>
    by_cases ha : (a.email == email) = true
    · refine Or.inr ⟨[], a, rest, rfl, by simp, ha, ?_, ?_⟩
      · simp [usersFindOne, ha]
      · simp [findOneAndIncBalance, ha]
    · have ha2 : (a.email == email) = false := by
        cases h : (a.email == email) with
        | true => exact absurd h ha
        | false => rfl
      rcases ih with ⟨hfind, hinc⟩ | ⟨pre, u, post, hs, hpre, hu, hfind, hinc⟩
      · refine Or.inl ⟨?_, ?_⟩
        · simp [usersFindOne, ha2, hfind]
        · simp [findOneAndIncBalance, ha2, hinc]
      · refine Or.inr ⟨a :: pre, u, post, by simp [hs], ?_, hu, ?_, ?_⟩
        · intro v hv
          rcases List.mem_cons.mp hv with rfl | hv
          · exact ha2
          · exact hpre v hv
        · simp [usersFindOne, ha2, hfind]
        · simp [findOneAndIncBalance, ha2, hinc]

/-- findOne on a split store whose first matching document is u. -/
lemma usersFindOne_append (pre post : Store) (u : UserRecord) (email : String)
    (hpre : ∀ v ∈ pre, (v.email == email) = false)
    (hu : (u.email == email) = true) :
    usersFindOne (pre ++ u :: post) email = some u := by
  induction pre with
  | nil => simp [usersFindOne, hu]
  | cons a rest ih =>
    have ha := hpre a (List.mem_cons_self a rest)
    simp only [List.cons_append, usersFindOne, ha]
    simp only [Bool.false_eq_true, if_false]
    exact ih fun v hv => hpre v (List.mem_cons_of_mem a hv)

/- ----------------------------------------------------------------- -/
/- Claim theorems.                                                   -/
/- ----------------------------------------------------------------- -/

/-- Claim C2: for every amount > 0 and every record whose balance B satisfies
B ≥ amount, a sequential withdraw(email, amount) succeeds and the post-state
balance of the record equals B − amount. -/
theorem withdraw_success_decrements (s : Store) (email : String)
    (amount : Rat) (u : UserRecord) (hfind : usersFindOne s email = some u)
    (hpos : 0 < amount) (hbal : amount ≤ u.balance) :
    ∃ s2, withdraw s email amount =
        (s2, Except.ok (some { u with balance := u.balance - amount })) ∧
      usersFindOne s2 email =
        some { u with balance := u.balance - amount } := by
  rcases findOneAndIncBalance_eq s email (-amount) with
    ⟨hnone, _⟩ | ⟨pre, u0, post, hs, hpre, hu, hfind0, hinc⟩
  · rw [hfind] at hnone; cases hnone
  · rw [hfind] at hfind0
    obtain rfl : u = u0 := Option.some.inj hfind0
    have hba : u.balance + -amount = u.balance - amount := by ring
    have hnle : ¬ amount ≤ 0 := not_le.mpr hpos
    have hnlt : ¬ u.balance < amount := not_lt.mpr hbal
    rw [hba] at hinc
    refine ⟨pre ++ { u with balance := u.balance - amount } :: post, ?_, ?_⟩
    · simp only [withdraw, hfind, if_neg hnle, if_neg hnlt, hinc]
    · exact usersFindOne_append pre post _ email hpre hu

/-- Witness for claim C2 at a concrete input. -/
theorem withdraw_success_decrements_witness :
    usersFindOne [ana] "ana@x.com" = some ana ∧ (0 : Rat) < 40 ∧
      (40 : Rat) ≤ ana.balance ∧
      ∃ s2, withdraw [ana] "ana@x.com" 40 =
          (s2, Except.ok (some { ana with balance := ana.balance - 40 })) ∧
        usersFindOne s2 "ana@x.com" =
          some { ana with balance := ana.balance - 40 } :=
  ⟨by norm_num +decide [usersFindOne, ana], by norm_num,
   by norm_num [ana],
   withdraw_success_decrements [ana] "ana@x.com" 40 ana
     (by norm_num +decide [usersFindOne, ana]) (by norm_num)
     (by norm_num [ana])⟩

/-- Claim C3 counterexample: a withdraw for an email with no matching record
does not always fail with NotFound — with a non-positive amount the amount
check fires first and the failure kind is InvalidAmount. -/
theorem withdraw_missing_email_not_notFound :
    withdraw ([] : Store) "missing@x.com" (-5) =
      (([] : Store), Except.error DalError.invalidAmount) ∧
    DalError.invalidAmount ≠ DalError.notFound := by
  constructor
  · norm_num [withdraw, usersFindOne]
  · decide

/-- Claim C3 (amended: for positive amounts): withdraw with amount exceeding
the current balance fails with InsufficientFunds and leaves the store
unchanged, and withdraw for an email with no matching record fails with
NotFound and leaves the store unchanged. -/
theorem withdraw_failure_modes :
    (∀ (s : Store) (email : String) (amount : Rat) (u : UserRecord),
        0 < amount → usersFindOne s email = some u → u.balance < amount →
        withdraw s email amount =
          (s, Except.error DalError.insufficientFunds)) ∧
    (∀ (s : Store) (email : String) (amount : Rat),
        0 < amount → usersFindOne s email = none →
        withdraw s email amount = (s, Except.error DalError.notFound)) := by
  constructor
  · intro s email amount u hpos hfind hlt
    have hnle : ¬ amount ≤ 0 := not_le.mpr hpos
    simp only [withdraw, hfind, if_neg hnle, if_pos hlt]
  · intro s email amount hpos hfind
    have hnle : ¬ amount ≤ 0 := not_le.mpr hpos
    simp only [withdraw, hfind, if_neg hnle]

/-- Witness for the amended claim C3 at concrete inputs. -/
theorem withdraw_failure_modes_witness :
    ((0 : Rat) < 200 ∧ usersFindOne [ana] "ana@x.com" = some ana ∧
      ana.balance < 200 ∧
      withdraw [ana] "ana@x.com" 200 =
        ([ana], Except.error DalError.insufficientFunds)) ∧
    ((0 : Rat) < 10 ∧ usersFindOne [ana] "missing@x.com" = none ∧
      withdraw [ana] "missing@x.com" 10 =
        ([ana], Except.error DalError.notFound)) :=
  ⟨⟨by norm_num, by norm_num +decide [usersFindOne, ana], by norm_num [ana],
    withdraw_failure_modes.1 [ana] "ana@x.com" 200 ana (by norm_num)
      (by norm_num +decide [usersFindOne, ana]) (by norm_num [ana])⟩,
   ⟨by norm_num, by norm_num +decide [usersFindOne, ana],
    withdraw_failure_modes.2 [ana] "missing@x.com" 10 (by norm_num)
      (by norm_num +decide [usersFindOne, ana])⟩⟩

/-- Claim C4: starting from a store in which every balance is non-negative,
no sequential withdraw, for any amount, produces a record with a negative
balance. -/
theorem withdraw_preserves_nonneg (s : Store) (email : String) (amount : Rat)
    (hinv : ∀ u ∈ s, 0 ≤ u.balance) :
    ∀ v ∈ (withdraw s email amount).1, 0 ≤ v.balance := by
  intro v hv
  by_cases hle : amount ≤ 0
  · simp only [withdraw, if_pos hle] at hv
    exact hinv v hv
  · rcases findOneAndIncBalance_eq s email (-amount) with
      ⟨hnone, _⟩ | ⟨pre, u, post, hs, hpre, hu, hfind, hinc⟩
    · simp only [withdraw, hnone, if_neg hle] at hv
      exact hinv v hv
    · by_cases hlt : u.balance < amount
      · simp only [withdraw, hfind, if_neg hle, if_pos hlt] at hv
        exact hinv v hv
      · simp only [withdraw, hfind, if_neg hle, if_neg hlt, hinc] at hv
        rcases List.mem_append.mp hv with hv | hv
        · exact hinv v (hs ▸ List.mem_append_left _ hv)
        · rcases List.mem_cons.mp hv with rfl | hv
          · have h1 : 0 ≤ u.balance :=
              hinv u (hs ▸ List.mem_append_right _ (List.mem_cons_self _ _))
            have h2 : amount ≤ u.balance := not_lt.mp hlt
            show 0 ≤ u.balance + -amount
            linarith
          · exact hinv v
              (hs ▸ List.mem_append_right _ (List.mem_cons_of_mem _ hv))

/-- Witness for claim C4 at a concrete input. -/
theorem withdraw_preserves_nonneg_witness :
    (∀ u ∈ [ana], 0 ≤ u.balance) ∧
      ∀ v ∈ (withdraw [ana] "ana@x.com" 40).1, 0 ≤ v.balance :=
  ⟨by intro u hu; rcases List.mem_singleton.mp hu with rfl; norm_num [ana],
   withdraw_preserves_nonneg [ana] "ana@x.com" 40
     (by intro u hu; rcases List.mem_singleton.mp hu with rfl;
         norm_num [ana])⟩

/-- Claim C1, failing input for the deposit half: dal.deposit runs the $inc
update BEFORE validating the amount, so deposit of −50 against a balance of
100 throws InvalidAmount yet leaves the stored balance at 50, not 100, and a
withdraw of −50 against the same store throws InvalidAmount with the store
untouched (the withdraw half of the claim holds; the deposit half does
not). -/
theorem deposit_nonpositive_amount_still_mutates :
    (deposit [ana] "ana@x.com" (-50) =
       ([{ ana with balance := 50 }], Except.error DalError.invalidAmount)) ∧
    ({ ana with balance := (50 : Rat) }).balance ≠ ana.balance ∧
    (withdraw [ana] "ana@x.com" (-50) =
       ([ana], Except.error DalError.invalidAmount)) := by
  refine ⟨?_, ?_, ?_⟩
  · norm_num +decide [deposit, findOneAndIncBalance, ana]
  · norm_num [ana]
  · norm_num [withdraw]

/-- Claim C5, failing input: the withdraw endpoint answers 500, not 404, both
for a missing user and for insufficient funds, because dal.withdraw throws
and the thrown error is caught by the generic catch block; the 404 branch
would need a null result, which dal.withdraw never returns sequentially. -/
theorem withdrawRoute_failures_return_500 :
    (withdrawRoute [ana] "missing@x.com" 10 =
       ([ana], { status := 500, body := Body.msg "Internal server error" })) ∧
    (withdrawRoute [ana] "ana@x.com" 200 =
       ([ana], { status := 500, body := Body.msg "Internal server error" })) := by
  constructor
  · norm_num +decide [withdrawRoute, withdraw, usersFindOne, ana]
  · norm_num +decide [withdrawRoute, withdraw, usersFindOne, ana]

/-- Claim C7: the sequential scenario create, deposit 100, withdraw 40
creates the record with balance 0 and ends with balance 60. -/
theorem scenario_create_deposit_withdraw :
    (createUser [] "Ana" "ana@x.com" "secret" 1234567890).2.balance = 0 ∧
    (usersFindOne
       (withdraw
          (deposit (createUser [] "Ana" "ana@x.com" "secret" 1234567890).1
             "ana@x.com" 100).1
          "ana@x.com" 40).1 "ana@x.com").map UserRecord.balance =
      some 60 := by
  constructor
  · norm_num [createUser]
  · norm_num +decide [createUser, deposit, withdraw, usersFindOne,
      findOneAndIncBalance]

/-- Claim C10: a successful deposit or withdraw changes only the balance
field of the first matching record, leaving its other fields and every other
record in the store untouched. -/
theorem deposit_withdraw_frame :
    (∀ (s : Store) (email : String) (amount : Rat) (u2 : UserRecord),
        (deposit s email amount).2 = Except.ok u2 →
        ∃ pre u post, s = pre ++ u :: post ∧
          (deposit s email amount).1 = pre ++ u2 :: post ∧
          u2 = { u with balance := u.balance + amount }) ∧
    (∀ (s : Store) (email : String) (amount : Rat) (u2 : UserRecord),
        (withdraw s email amount).2 = Except.ok (some u2) →
        ∃ pre u post, s = pre ++ u :: post ∧
          (withdraw s email amount).1 = pre ++ u2 :: post ∧
          u2 = { u with balance := u.balance - amount }) := by
  constructor
  · intro s email amount u2 h
    by_cases hle : amount ≤ 0
    · simp only [deposit, if_pos hle] at h
      exact Except.noConfusion h
    · rcases findOneAndIncBalance_eq s email amount with
        ⟨_, hinc⟩ | ⟨pre, u, post, hs, _, _, _, hinc⟩
      · simp only [deposit, if_neg hle, hinc] at h
        exact Except.noConfusion h
      · simp only [deposit, if_neg hle, hinc] at h
        obtain rfl : { u with balance := u.balance + amount } = u2 :=
          Except.ok.inj h
        exact ⟨pre, u, post, hs, by simp only [deposit, if_neg hle, hinc],
          rfl⟩
  · intro s email amount u2 h
    by_cases hle : amount ≤ 0
    · simp only [withdraw, if_pos hle] at h
      exact Except.noConfusion h
    · rcases findOneAndIncBalance_eq s email (-amount) with
        ⟨hnone, _⟩ | ⟨pre, u, post, hs, _, _, hfind, hinc⟩
      · simp only [withdraw, hnone, if_neg hle] at h
        exact Except.noConfusion h
      · by_cases hlt : u.balance < amount
        · simp only [withdraw, hfind, if_neg hle, if_pos hlt] at h
          exact Except.noConfusion h
        · simp only [withdraw, hfind, if_neg hle, if_neg hlt, hinc] at h
          obtain rfl : { u with balance := u.balance + -amount } = u2 :=
            Option.some.inj (Except.ok.inj h)
          refine ⟨pre, u, post, hs, ?_, ?_⟩
          · simp only [withdraw, hfind, if_neg hle, if_neg hlt, hinc]
          · have : u.balance + -amount = u.balance - amount := by ring
            rw [this]

/-- Witness for claim C10 at concrete inputs. -/
theorem deposit_withdraw_frame_witness :
    ((deposit [ana] "ana@x.com" 40).2 =
        Except.ok { ana with balance := (140 : Rat) } ∧
      ∃ pre u post, [ana] = pre ++ u :: post ∧
        (deposit [ana] "ana@x.com" 40).1 = pre ++
          { ana with balance := (140 : Rat) } :: post ∧
        { ana with balance := (140 : Rat) } =
          { u with balance := u.balance + 40 }) ∧
    ((withdraw [ana] "ana@x.com" 40).2 =
        Except.ok (some { ana with balance := (60 : Rat) }) ∧
      ∃ pre u post, [ana] = pre ++ u :: post ∧
        (withdraw [ana] "ana@x.com" 40).1 = pre ++
          { ana with balance := (60 : Rat) } :: post ∧
        { ana with balance := (60 : Rat) } =
          { u with balance := u.balance - 40 }) :=
  ⟨⟨by norm_num +decide [deposit, findOneAndIncBalance, ana],
    deposit_withdraw_frame.1 [ana] "ana@x.com" 40 _
      (by norm_num +decide [deposit, findOneAndIncBalance, ana])⟩,
   ⟨by norm_num +decide [withdraw, usersFindOne, findOneAndIncBalance, ana],
    deposit_withdraw_frame.2 [ana] "ana@x.com" 40 _
      (by norm_num +decide [withdraw, usersFindOne, findOneAndIncBalance,
        ana])⟩⟩

/-- Claim C6 counterexample: at a concrete create request the 201 success
payload does include a password field — the bcrypt hash of the created
record sits under a password key nested inside the serialized user document
(inside its name field, where the bungled positional dal.create call put
the whole request object), so the success payload is not password-free. -/
theorem createRoute_payload_contains_password :
    ((createRoute [] "Ana" "ana@x.com" "secret" (1/2) hashStub).2.status =
      201) ∧
    jsonFieldsHavePassword
        (createRoute [] "Ana" "ana@x.com" "secret" (1/2)
          hashStub).2.body = true := by
  constructor
  · norm_num +decide [createRoute, find]
  · norm_num +decide [createRoute, find, create, hashStub, serializeValue,
      serializeFields, jsonHasPasswordKey, jsonFieldsHavePassword]

/-- Claim C6 (amended): the deposit, withdraw and balance endpoints never
put a password field into any response body; every 201 answer of the create
endpoint carries the hashed password under a password key nested inside the
name field of its user object, while the user object itself has no
top-level password field (the inserted record holds its password parameter
undefined, and JSON serialization drops undefined-valued fields). -/
theorem success_payloads_password :
    (∀ (s : Store) (email : String) (amount : Rat),
        bodyHasPassword (depositRoute s email amount).2.body = false) ∧
    (∀ (s : Store) (email : String) (amount : Rat),
        bodyHasPassword (withdrawRoute s email amount).2.body = false) ∧
    (∀ (s : Store) (email : String),
        bodyHasPassword (balanceRoute s email).body = false) ∧
    (∀ (s : List JsDoc) (name email password : String) (r : Rat)
        (hash : String → String),
        (createRoute s name email password r hash).2.status = 201 →
        jsonFieldsHavePassword
            (createRoute s name email password r hash).2.body = true ∧
          userTopLevelPassword
            (createRoute s name email password r hash).2.body = false) := by
  refine ⟨?_, ?_, ?_, ?_⟩
  · intro s email amount
    rcases hd : (deposit s email amount).2 with e | u <;>
      simp [depositRoute, hd, bodyHasPassword]
  · intro s email amount
    rcases hw : (withdraw s email amount).2 with e | u
    · simp [withdrawRoute, hw, bodyHasPassword]
    · rcases u with _ | u <;> simp [withdrawRoute, hw, bodyHasPassword]
  · intro s email
    rcases hb : findOne s email with e | u <;>
      simp [balanceRoute, hb, bodyHasPassword]
  · intro s name email password r hash hstatus
    by_cases hdup : (find s email).length > 0
    · simp only [createRoute, if_pos hdup] at hstatus
      cases hstatus
    · constructor
      · simp +decide [createRoute, if_neg hdup, create, serializeValue,
          serializeFields, jsonHasPasswordKey, jsonFieldsHavePassword]
      · simp +decide [createRoute, if_neg hdup, create, serializeValue,
          serializeFields, jsonGetField, jsonFieldsHaveKey,
          userTopLevelPassword]

/-- Witness for the amended claim C6 at a concrete input. -/
theorem success_payloads_password_witness :
    ((createRoute [] "Bo" "bo@x.com" "pw" (1/3) hashStub).2.status =
      201) ∧
    (jsonFieldsHavePassword
        (createRoute [] "Bo" "bo@x.com" "pw" (1/3) hashStub).2.body =
        true ∧
      userTopLevelPassword
        (createRoute [] "Bo" "bo@x.com" "pw" (1/3) hashStub).2.body =
        false) :=
  ⟨by norm_num +decide [createRoute, find],
   success_payloads_password.2.2.2 [] "Bo" "bo@x.com" "pw" (1/3) hashStub
     (by norm_num +decide [createRoute, find])⟩

/-- Claim C8, failing input: create twice with the same email on an empty
store.  The duplicate check dal.find(email) can never match a record this
route inserted, because the one-object call against the positional
dal.create(name, email, password) leaves the inserted record with an
undefined email field; the second create therefore answers 201 again and
inserts a second document instead of failing with 409 AlreadyExists, and
even a find for the email right after the first create comes back empty. -/
theorem create_duplicate_not_rejected :
    ((createRoute [] "Ana" "ana@x.com" "secret" (1/2) hashStub).2.status =
      201) ∧
    (find (createRoute [] "Ana" "ana@x.com" "secret" (1/2) hashStub).1
      "ana@x.com" = []) ∧
    ((createRoute (createRoute [] "Ana" "ana@x.com" "secret" (1/2)
          hashStub).1 "Ana" "ana@x.com" "secret" (1/3)
        hashStub).2.status = 201) ∧
    ((createRoute (createRoute [] "Ana" "ana@x.com" "secret" (1/2)
          hashStub).1 "Ana" "ana@x.com" "secret" (1/3)
        hashStub).2.status ≠ 409) ∧
    ((createRoute (createRoute [] "Ana" "ana@x.com" "secret" (1/2)
          hashStub).1 "Ana" "ana@x.com" "secret" (1/3)
        hashStub).1.length = 2) := by
  refine ⟨?_, ?_, ?_, ?_, ?_⟩ <;>
    norm_num +decide [createRoute, find, create, jsGetField, hashStub]

/-- Claim C9: for every random draw r with 0 ≤ r < 1, the generated account
number floor(1000000000 + r * 9000000000) lies in
[1000000000, 9999999999], i.e. it is a 10-digit numeral; the same generator
genAccountNumber is the one invoked by both the create route and
createBankAccount. -/
theorem genAccountNumber_ten_digits (r : Rat) (h0 : 0 ≤ r) (h1 : r < 1) :
    1000000000 ≤ genAccountNumber r ∧ genAccountNumber r ≤ 9999999999 := by
  unfold genAccountNumber
  constructor
  · apply Int.le_floor.mpr
    push_cast
    nlinarith
  · have hlt : ((1000000000 : Rat) + r * 9000000000) <
        ((10000000000 : Int) : Rat) := by
      push_cast
      nlinarith
    have h2 := Int.floor_lt.mpr hlt
    omega

/-- Witness for claim C9 at a concrete input. -/
theorem genAccountNumber_ten_digits_witness :
    (0 : Rat) ≤ 1/2 ∧ (1/2 : Rat) < 1 ∧
      (1000000000 ≤ genAccountNumber (1/2) ∧
       genAccountNumber (1/2) ≤ 9999999999) :=
  ⟨by norm_num, by norm_num,
   genAccountNumber_ten_digits (1/2) (by norm_num) (by norm_num)⟩

end BankOfBrown
